import Mathlib

/-!
Verification of the uinput virtual-input-device library (touchpad and mouse
emitters, device creation, event transmission).

The emitters and the two creation routines are embedded from the Go source
(`touchpad.go`).  Helpers that the source calls but that live in other files of
the repository (the binary event codec, `sendBtnEvent`, `syncEvents`,
`closeDevice`, the ioctl wrappers and the event-code constants) are modelled
from the specification; each such definition says so in its doc comment.

The kernel device file is modelled as the ordered list of event records
successfully written to it, together with failure oracles that decide whether
a given encode attempt or write syscall fails.  The control channel used
during device creation is modelled as the ordered list of attempted control
requests, again with a failure oracle.
-/

namespace Uinput

/-- Modelled from the spec: the event-type constants (`uinputdefs`, not among
the provided sources).  The type field distinguishes synchronization, key or
button, relative-motion and absolute-position events; values follow the Linux
input protocol the spec describes. -/
def evSyn : Nat := 0x00

/-- Modelled from the spec: key/button event type. -/
def evKey : Nat := 0x01

/-- Modelled from the spec: relative-motion event type. -/
def evRel : Nat := 0x02

/-- Modelled from the spec: absolute-position event type. -/
def evAbs : Nat := 0x03

/-- Modelled from the spec: absolute X axis code. -/
def absX : Nat := 0x00

/-- Modelled from the spec: absolute Y axis code. -/
def absY : Nat := 0x01

/-- Modelled from the spec: relative X axis code. -/
def relX : Nat := 0x00

/-- Modelled from the spec: relative Y axis code. -/
def relY : Nat := 0x01

/-- Modelled from the spec: left mouse button code. -/
def evBtnLeft : Nat := 0x110

/-- Modelled from the spec: right mouse button code. -/
def evBtnRight : Nat := 0x111

/-- Modelled from the spec: button-pressed state value. -/
def btnStatePressed : Int := 1

/-- Modelled from the spec: button-released state value. -/
def btnStateReleased : Int := 0

/-- Modelled from the spec: report code of a synchronization event. -/
def synReport : Nat := 0

/-- Modelled from the spec: USB bus type identifier. -/
def busUsb : Nat := 0x03

/-- Modelled from the spec: size of the per-axis bound arrays in the device
descriptor. -/
def absSize : Nat := 64

/-- Modelled from the spec: fixed size of the name field in the descriptor. -/
def uinputMaxNameSize : Nat := 80

/-- Reduction of an unbounded integer into the signed 32-bit range, the way a
Go `int32` wraps. -/
def wrap32 (n : Int) : Int := (n + 2 ^ 31) % 2 ^ 32 - 2 ^ 31

/-- Go `int32` negation: mathematical negation followed by 32-bit wrap. -/
def neg32 (p : Int) : Int := wrap32 (-p)

/-- Interpretation of a nonnegative residue below `2 ^ 32` as a signed 32-bit
value. -/
def toSigned32 (n : Int) : Int := if n < 2 ^ 31 then n else n - 2 ^ 32

/-- One event record of the input protocol: timestamp, type, code, value
(`inputEvent` in the source). -/
structure InputEvent where
  timeSec : Int := 0
  timeUsec : Int := 0
  type : Nat
  code : Nat
  value : Int
deriving DecidableEq

/-- The synchronization event record the library emits after a sequence. -/
def syncEv : InputEvent := { type := evSyn, code := synReport, value := 0 }

/-- Errors: a base OS/system error, the closed-file error, or a wrapping of an
inner error with a stage-naming message (`fmt.Errorf` in the source). -/
inductive Err where
  | sys (msg : String)
  | fileAlreadyClosed
  | wrapped (msg : String) (inner : Err)
deriving DecidableEq

/-- The device file: whether the handle has been closed, the event records
successfully written so far (in order), and oracles deciding whether the n-th
encode attempt and the n-th write syscall fail. -/
structure DeviceFile where
  closed : Bool
  written : List InputEvent
  failEncode : Nat → Option Err
  failWrite : Nat → Option Err
  encodes : Nat
  writes : Nat

/-- A fresh device file with the given failure oracles. -/
def mkDeviceFile (fe fw : Nat → Option Err) : DeviceFile :=
  { closed := false, written := [], failEncode := fe, failWrite := fw,
    encodes := 0, writes := 0 }

/-- The oracle under which every attempt succeeds. -/
def noFail : Nat → Option Err := fun _ => none

/-- Modelled from the spec: the binary event codec `inputEventToBuffer` (not
among the provided sources) encodes one record into the platform's native
fixed-field-order layout and fails only when that layout cannot be
determined.  The embedding keeps the record itself as the encoding and lets
the oracle inject the failure. -/
def inputEventToBuffer (f : DeviceFile) (iev : InputEvent) :
    DeviceFile × Except Err InputEvent :=
  match f.failEncode f.encodes with
  | some e => ({ f with encodes := f.encodes + 1 }, Except.error e)
  | none => ({ f with encodes := f.encodes + 1 }, Except.ok iev)

/-- Modelled from the spec: writing one encoded record to the device file
(`os.File.Write`).  A closed handle refuses the write without touching the
device; otherwise the oracle decides whether the underlying syscall fails; a
successful write appends the record to the file. -/
def fileWrite (f : DeviceFile) (buf : InputEvent) : DeviceFile × Option Err :=
  if f.closed then (f, some Err.fileAlreadyClosed)
  else
    match f.failWrite f.writes with
    | some e => ({ f with writes := f.writes + 1 }, some e)
    | none =>
        ({ f with writes := f.writes + 1, written := f.written ++ [buf] }, none)

/-- Modelled from the spec: `syncEvents` (not among the provided sources)
encodes and writes one synchronization event record. -/
def syncEvents (f : DeviceFile) : DeviceFile × Option Err :=
  match inputEventToBuffer f syncEv with
  | (f1, Except.error e) =>
      (f1, some (Err.wrapped "writing sync event failed" e))
  | (f1, Except.ok buf) =>
      match fileWrite f1 buf with
      | (f2, some e) =>
          (f2, some (Err.wrapped "failed to write sync event to device file" e))
      | (f2, none) => (f2, none)

/-- Modelled from the spec: `sendBtnEvent` (not among the provided sources)
emits a single button event (key type, given code, press or release state)
followed by a synchronization event; any failing step aborts the call. -/
def sendBtnEvent (f : DeviceFile) (key : Nat) (btnState : Int) :
    DeviceFile × Option Err :=
  match inputEventToBuffer f { type := evKey, code := key, value := btnState } with
  | (f1, Except.error e) =>
      (f1, some (Err.wrapped "writing btnEvent failed" e))
  | (f1, Except.ok buf) =>
      match fileWrite f1 buf with
      | (f2, some e) =>
          (f2, some (Err.wrapped "failed to write btnEvent to device file" e))
      | (f2, none) => syncEvents f2

/-- Modelled from the spec: `closeDevice` (not among the provided sources)
issues the standard handle close, which destroys the kernel device node;
afterwards the handle is closed and refuses further writes. -/
def closeDevice (f : DeviceFile) : DeviceFile × Option Err :=
  if f.closed then (f, some Err.fileAlreadyClosed)
  else ({ f with closed := true }, none)

/-- One iteration of the loop body of `sendAbsEvent` in the source: encode the
record, then write it, wrapping either failure with the stage message. -/
def sendAbsEventStep (f : DeviceFile) (iev : InputEvent) :
    DeviceFile × Option Err :=
  match inputEventToBuffer f iev with
  | (f1, Except.error e) =>
      (f1, some (Err.wrapped "writing abs event failed" e))
  | (f1, Except.ok buf) =>
      match fileWrite f1 buf with
      | (f2, some e) =>
          (f2, some (Err.wrapped "failed to write abs event to device file" e))
      | (f2, none) => (f2, none)

/-- `sendAbsEvent` from the source: builds the absolute-X record and the
absolute-Y record, writes them in that order through the loop body (an error
aborts the remaining steps), then writes the synchronization event. -/
def sendAbsEvent (f : DeviceFile) (xPos yPos : Int) : DeviceFile × Option Err :=
  match sendAbsEventStep f { type := evAbs, code := absX, value := xPos } with
  | (f1, some e) => (f1, some e)
  | (f1, none) =>
      match sendAbsEventStep f1 { type := evAbs, code := absY, value := yPos } with
      | (f2, some e) => (f2, some e)
      | (f2, none) => syncEvents f2

/-- `sendRelEvent` from the source: builds one relative-motion record with the
given code and signed value, encodes and writes it, then writes the
synchronization event.  (The encode-failure message really says "abs" in the
source.) -/
def sendRelEvent (f : DeviceFile) (eventCode : Nat) (pixel : Int) :
    DeviceFile × Option Err :=
  match inputEventToBuffer f
      { timeSec := 0, timeUsec := 0, type := evRel, code := eventCode,
        value := pixel } with
  | (f1, Except.error e) =>
      (f1, some (Err.wrapped "writing abs event failed" e))
  | (f1, Except.ok buf) =>
      match fileWrite f1 buf with
      | (f2, some e) =>
          (f2, some (Err.wrapped "failed to write rel event to device file" e))
      | (f2, none) => syncEvents f2

namespace vTouchPad

/-- `vTouchPad.MoveTo` from the source. -/
def MoveTo (f : DeviceFile) (x y : Int) : DeviceFile × Option Err :=
  sendAbsEvent f x y

/-- `vTouchPad.LeftClick` from the source: press, then release; a failing
press aborts with a wrapping error. -/
def LeftClick (f : DeviceFile) : DeviceFile × Option Err :=
  match sendBtnEvent f evBtnLeft btnStatePressed with
  | (f1, some e) =>
      (f1, some (Err.wrapped "Failed to issue the LeftClick event" e))
  | (f1, none) => sendBtnEvent f1 evBtnLeft btnStateReleased

/-- `vTouchPad.RightClick` from the source. -/
def RightClick (f : DeviceFile) : DeviceFile × Option Err :=
  match sendBtnEvent f evBtnRight btnStatePressed with
  | (f1, some e) =>
      (f1, some (Err.wrapped "Failed to issue the RightClick event" e))
  | (f1, none) => sendBtnEvent f1 evBtnRight btnStateReleased

/-- `vTouchPad.LeftPress` from the source. -/
def LeftPress (f : DeviceFile) : DeviceFile × Option Err :=
  sendBtnEvent f evBtnLeft btnStatePressed

/-- `vTouchPad.LeftRelease` from the source. -/
def LeftRelease (f : DeviceFile) : DeviceFile × Option Err :=
  sendBtnEvent f evBtnLeft btnStateReleased

/-- `vTouchPad.RightPress` from the source. -/
def RightPress (f : DeviceFile) : DeviceFile × Option Err :=
  sendBtnEvent f evBtnRight btnStatePressed

/-- `vTouchPad.RightRelease` from the source. -/
def RightRelease (f : DeviceFile) : DeviceFile × Option Err :=
  sendBtnEvent f evBtnRight btnStateReleased

/-- `vTouchPad.Close` from the source: delegates to `closeDevice`. -/
def Close (f : DeviceFile) : DeviceFile × Option Err :=
  closeDevice f

end vTouchPad

namespace vMouse

/-- `vMouse.MoveLeft` from the source: relative X event with the negated pixel
count (Go `int32` negation wraps). -/
def MoveLeft (f : DeviceFile) (pixel : Int) : DeviceFile × Option Err :=
  sendRelEvent f relX (neg32 pixel)

/-- `vMouse.MoveRight` from the source. -/
def MoveRight (f : DeviceFile) (pixel : Int) : DeviceFile × Option Err :=
  sendRelEvent f relX pixel

/-- `vMouse.MoveUp` from the source: relative Y event with the negated pixel
count. -/
def MoveUp (f : DeviceFile) (pixel : Int) : DeviceFile × Option Err :=
  sendRelEvent f relY (neg32 pixel)

/-- `vMouse.MoveDown` from the source. -/
def MoveDown (f : DeviceFile) (pixel : Int) : DeviceFile × Option Err :=
  sendRelEvent f relY pixel

/-- `vMouse.LeftClick` from the source. -/
def LeftClick (f : DeviceFile) : DeviceFile × Option Err :=
  match sendBtnEvent f evBtnLeft btnStatePressed with
  | (f1, some e) =>
      (f1, some (Err.wrapped "Failed to issue the LeftClick event" e))
  | (f1, none) => sendBtnEvent f1 evBtnLeft btnStateReleased

/-- `vMouse.RightClick` from the source. -/
def RightClick (f : DeviceFile) : DeviceFile × Option Err :=
  match sendBtnEvent f evBtnRight btnStatePressed with
  | (f1, some e) =>
      (f1, some (Err.wrapped "Failed to issue the RightClick event" e))
  | (f1, none) => sendBtnEvent f1 evBtnRight btnStateReleased

/-- `vMouse.LeftPress` from the source. -/
def LeftPress (f : DeviceFile) : DeviceFile × Option Err :=
  sendBtnEvent f evBtnLeft btnStatePressed

/-- `vMouse.LeftRelease` from the source. -/
def LeftRelease (f : DeviceFile) : DeviceFile × Option Err :=
  sendBtnEvent f evBtnLeft btnStateReleased

/-- `vMouse.RightPress` from the source. -/
def RightPress (f : DeviceFile) : DeviceFile × Option Err :=
  sendBtnEvent f evBtnRight btnStatePressed

/-- `vMouse.RightRelease` from the source. -/
def RightRelease (f : DeviceFile) : DeviceFile × Option Err :=
  sendBtnEvent f evBtnRight btnStateReleased

/-- `vMouse.Close` from the source. -/
def Close (f : DeviceFile) : DeviceFile × Option Err :=
  closeDevice f

end vMouse

/-- Device identity (`inputID` in the source): bus type and the fixed
vendor/product/version identifiers. -/
structure InputID where
  Bustype : Nat
  Vendor : Nat
  Product : Nat
  Version : Nat
deriving DecidableEq

/-- The final device descriptor (`uinputUserDev` in the source): padded name,
identity, and the per-axis minimum/maximum bound arrays. -/
structure UinputUserDev where
  Name : List Nat
  ID : InputID
  Absmin : List Int := List.replicate absSize 0
  Absmax : List Int := List.replicate absSize 0
deriving DecidableEq

/-- Modelled from the spec: `toUinputName` (not among the provided sources)
truncates or pads the validated device name into the fixed-size name field of
the descriptor. -/
def toUinputName (name : List Nat) : List Nat :=
  name.take uinputMaxNameSize ++
    List.replicate (uinputMaxNameSize - name.length) 0

/-- The typed control requests the creation paths issue: open the device
file, a capability-registration ioctl, or the final descriptor submission. -/
inductive IoctlReq where
  | uiSetEvBit
  | uiSetKeyBit
  | uiSetAbsBit
  | uiSetRelBit
deriving DecidableEq

/-- One attempted control call during device creation. -/
inductive CtrlReq where
  | openFile (path : String)
  | ctl (req : IoctlReq) (arg : Nat)
  | devCreate (dev : UinputUserDev)
deriving DecidableEq

/-- The state of the creation protocol: the control calls attempted so far in
order, the failure oracle (which attempt fails, with which error), the number
of attempts made, and whether the opened device file has been closed again. -/
structure SetupState where
  calls : List CtrlReq
  failPlan : Nat → Option Err
  count : Nat
  fileClosed : Bool

/-- A fresh creation state under the given failure oracle. -/
def initialSetup (plan : Nat → Option Err) : SetupState :=
  { calls := [], failPlan := plan, count := 0, fileClosed := false }

/-- Modelled from the spec: the control-channel adapter.  Each request is
recorded in order and either succeeds or returns the error the oracle
assigns to this attempt. -/
def ctrlCall (s : SetupState) (r : CtrlReq) : SetupState × Option Err :=
  ({ s with calls := s.calls ++ [r], count := s.count + 1 }, s.failPlan s.count)

/-- Modelled from the spec: `createDeviceFile` (not among the provided
sources) opens the kernel virtual-input control node. -/
def createDeviceFile (s : SetupState) (path : String) :
    SetupState × Option Err :=
  ctrlCall s (CtrlReq.openFile path)

/-- Modelled from the spec: `registerDevice` (not among the provided sources)
registers an event-type category via the set-event-bit control request. -/
def registerDevice (s : SetupState) (evType : Nat) : SetupState × Option Err :=
  ctrlCall s (CtrlReq.ctl IoctlReq.uiSetEvBit evType)

/-- Modelled from the spec: `ioctl` (not among the provided sources) issues
one typed control request with its argument. -/
def ioctl (s : SetupState) (req : IoctlReq) (arg : Nat) :
    SetupState × Option Err :=
  ctrlCall s (CtrlReq.ctl req arg)

/-- Modelled from the spec: `createUsbDevice` (not among the provided sources)
submits the final device descriptor to instantiate the virtual device; on
failure it closes the device file and returns a stage-naming error. -/
def createUsbDevice (s : SetupState) (dev : UinputUserDev) :
    SetupState × Except Err Unit :=
  match ctrlCall s (CtrlReq.devCreate dev) with
  | (s1, some e) =>
      ({ s1 with fileClosed := true },
       Except.error (Err.wrapped "failed to submit final device descriptor" e))
  | (s1, none) => (s1, Except.ok ())

/-- `createTouchPad` from the source: open the file, register the key
category, the left and right button codes, the absolute-position category,
the absolute X and Y codes, then submit the descriptor carrying the per-axis
bounds; every failure closes the file and aborts with a stage-naming error. -/
def createTouchPad (s : SetupState) (path : String) (name : List Nat)
    (minX maxX minY maxY : Int) : SetupState × Except Err Unit :=
  match createDeviceFile s path with
  | (s1, some e) =>
      (s1, Except.error
        (Err.wrapped "could not create absolute axis input device" e))
  | (s1, none) =>
  match registerDevice s1 evKey with
  | (s2, some e) =>
      ({ s2 with fileClosed := true },
       Except.error (Err.wrapped "failed to register key device" e))
  | (s2, none) =>
  match ioctl s2 IoctlReq.uiSetKeyBit evBtnLeft with
  | (s3, some e) =>
      ({ s3 with fileClosed := true },
       Except.error (Err.wrapped "failed to register left click event" e))
  | (s3, none) =>
  match ioctl s3 IoctlReq.uiSetKeyBit evBtnRight with
  | (s4, some e) =>
      ({ s4 with fileClosed := true },
       Except.error (Err.wrapped "failed to register right click event" e))
  | (s4, none) =>
  match registerDevice s4 evAbs with
  | (s5, some e) =>
      ({ s5 with fileClosed := true },
       Except.error
         (Err.wrapped "failed to register absolute axis input device" e))
  | (s5, none) =>
  match ioctl s5 IoctlReq.uiSetAbsBit absX with
  | (s6, some e) =>
      ({ s6 with fileClosed := true },
       Except.error
         (Err.wrapped "failed to register absolute x axis events" e))
  | (s6, none) =>
  match ioctl s6 IoctlReq.uiSetAbsBit absY with
  | (s7, some e) =>
      ({ s7 with fileClosed := true },
       Except.error
         (Err.wrapped "failed to register absolute y axis events" e))
  | (s7, none) =>
  createUsbDevice s7
    { Name := toUinputName name,
      ID := { Bustype := busUsb, Vendor := 0x4711, Product := 0x0817,
              Version := 1 },
      Absmin := (((List.replicate absSize (0 : Int)).set absX minX).set absY minY),
      Absmax := (((List.replicate absSize (0 : Int)).set absX maxX).set absY maxY) }

/-- `createMouse` from the source: the same key/button sequence, then the
relative-motion category and the relative X and Y codes, then the descriptor
with no axis bounds. -/
def createMouse (s : SetupState) (path : String) (name : List Nat) :
    SetupState × Except Err Unit :=
  match createDeviceFile s path with
  | (s1, some e) =>
      (s1, Except.error
        (Err.wrapped "could not create relative axis input device" e))
  | (s1, none) =>
  match registerDevice s1 evKey with
  | (s2, some e) =>
      ({ s2 with fileClosed := true },
       Except.error (Err.wrapped "failed to register key device" e))
  | (s2, none) =>
  match ioctl s2 IoctlReq.uiSetKeyBit evBtnLeft with
  | (s3, some e) =>
      ({ s3 with fileClosed := true },
       Except.error (Err.wrapped "failed to register left click event" e))
  | (s3, none) =>
  match ioctl s3 IoctlReq.uiSetKeyBit evBtnRight with
  | (s4, some e) =>
      ({ s4 with fileClosed := true },
       Except.error (Err.wrapped "failed to register right click event" e))
  | (s4, none) =>
  match registerDevice s4 evRel with
  | (s5, some e) =>
      ({ s5 with fileClosed := true },
       Except.error
         (Err.wrapped "failed to register relative axis input device" e))
  | (s5, none) =>
  match ioctl s5 IoctlReq.uiSetRelBit relX with
  | (s6, some e) =>
      ({ s6 with fileClosed := true },
       Except.error
         (Err.wrapped "failed to register relative x axis events" e))
  | (s6, none) =>
  match ioctl s6 IoctlReq.uiSetRelBit relY with
  | (s7, some e) =>
      ({ s7 with fileClosed := true },
       Except.error
         (Err.wrapped "failed to register relative y axis events" e))
  | (s7, none) =>
  createUsbDevice s7
    { Name := toUinputName name,
      ID := { Bustype := busUsb, Vendor := 0x4711, Product := 0x0816,
              Version := 1 } }

/-- The full ordered control-call sequence of a successful touchpad creation. -/
def touchCallSeq (path : String) (name : List Nat)
    (minX maxX minY maxY : Int) : List CtrlReq :=
  [CtrlReq.openFile path,
   CtrlReq.ctl IoctlReq.uiSetEvBit evKey,
   CtrlReq.ctl IoctlReq.uiSetKeyBit evBtnLeft,
   CtrlReq.ctl IoctlReq.uiSetKeyBit evBtnRight,
   CtrlReq.ctl IoctlReq.uiSetEvBit evAbs,
   CtrlReq.ctl IoctlReq.uiSetAbsBit absX,
   CtrlReq.ctl IoctlReq.uiSetAbsBit absY,
   CtrlReq.devCreate
     { Name := toUinputName name,
       ID := { Bustype := busUsb, Vendor := 0x4711, Product := 0x0817,
               Version := 1 },
       Absmin := (((List.replicate absSize (0 : Int)).set absX minX).set absY minY),
       Absmax := (((List.replicate absSize (0 : Int)).set absX maxX).set absY maxY) }]

/-- The full ordered control-call sequence of a successful mouse creation. -/
def mouseCallSeq (path : String) (name : List Nat) : List CtrlReq :=
  [CtrlReq.openFile path,
   CtrlReq.ctl IoctlReq.uiSetEvBit evKey,
   CtrlReq.ctl IoctlReq.uiSetKeyBit evBtnLeft,
   CtrlReq.ctl IoctlReq.uiSetKeyBit evBtnRight,
   CtrlReq.ctl IoctlReq.uiSetEvBit evRel,
   CtrlReq.ctl IoctlReq.uiSetRelBit relX,
   CtrlReq.ctl IoctlReq.uiSetRelBit relY,
   CtrlReq.devCreate
     { Name := toUinputName name,
       ID := { Bustype := busUsb, Vendor := 0x4711, Product := 0x0816,
               Version := 1 } }]

/-- The stage-naming error message of the n-th control call of
`createTouchPad`, matching the wrapping messages in the source. -/
def touchStageMsgs : List String :=
  ["could not create absolute axis input device",
   "failed to register key device",
   "failed to register left click event",
   "failed to register right click event",
   "failed to register absolute axis input device",
   "failed to register absolute x axis events",
   "failed to register absolute y axis events",
   "failed to submit final device descriptor"]

/-- The stage-naming error message of the n-th control call of
`createMouse`. -/
def mouseStageMsgs : List String :=
  ["could not create relative axis input device",
   "failed to register key device",
   "failed to register left click event",
   "failed to register right click event",
   "failed to register relative axis input device",
   "failed to register relative x axis events",
   "failed to register relative y axis events",
   "failed to submit final device descriptor"]

/-- The error a button-event write on a closed handle surfaces. -/
def closedBtnErr : Err :=
  Err.wrapped "failed to write btnEvent to device file" Err.fileAlreadyClosed

/-- The error an absolute-event write on a closed handle surfaces. -/
def closedAbsErr : Err :=
  Err.wrapped "failed to write abs event to device file" Err.fileAlreadyClosed

/-- The error a relative-event write on a closed handle surfaces. -/
def closedRelErr : Err :=
  Err.wrapped "failed to write rel event to device file" Err.fileAlreadyClosed

theorem sendBtnEvent_eq_of_ok (f : DeviceFile) (key : Nat) (st : Int)
    (hc : f.closed = false) (he : ∀ n, f.failEncode n = none)
    (hw : ∀ n, f.failWrite n = none) :
    sendBtnEvent f key st =
      ({ f with
          written := f.written ++
            [{ type := evKey, code := key, value := st }, syncEv],
          encodes := f.encodes + 2,
          writes := f.writes + 2 }, none) := by
  simp +arith [sendBtnEvent, inputEventToBuffer, fileWrite, syncEvents, hc,
    he, hw]

theorem sendRelEvent_eq_of_ok (f : DeviceFile) (c : Nat) (v : Int)
    (hc : f.closed = false) (he : ∀ n, f.failEncode n = none)
    (hw : ∀ n, f.failWrite n = none) :
    sendRelEvent f c v =
      ({ f with
          written := f.written ++
            [{ type := evRel, code := c, value := v }, syncEv],
          encodes := f.encodes + 2,
          writes := f.writes + 2 }, none) := by
  simp +arith [sendRelEvent, inputEventToBuffer, fileWrite, syncEvents, hc,
    he, hw]

theorem sendAbsEvent_eq_of_ok (f : DeviceFile) (x y : Int)
    (hc : f.closed = false) (he : ∀ n, f.failEncode n = none)
    (hw : ∀ n, f.failWrite n = none) :
    sendAbsEvent f x y =
      ({ f with
          written := f.written ++
            [{ type := evAbs, code := absX, value := x },
             { type := evAbs, code := absY, value := y }, syncEv],
          encodes := f.encodes + 3,
          writes := f.writes + 3 }, none) := by
  simp +arith [sendAbsEvent, sendAbsEventStep, inputEventToBuffer, fileWrite,
    syncEvents, hc, he, hw]

theorem sendBtnEvent_eq_of_closed (f : DeviceFile) (key : Nat) (st : Int)
    (hc : f.closed = true) (he : ∀ n, f.failEncode n = none) :
    sendBtnEvent f key st =
      ({ f with encodes := f.encodes + 1 }, some closedBtnErr) := by
  simp [sendBtnEvent, inputEventToBuffer, fileWrite, closedBtnErr, hc, he]

theorem sendRelEvent_eq_of_closed (f : DeviceFile) (c : Nat) (v : Int)
    (hc : f.closed = true) (he : ∀ n, f.failEncode n = none) :
    sendRelEvent f c v =
      ({ f with encodes := f.encodes + 1 }, some closedRelErr) := by
  simp [sendRelEvent, inputEventToBuffer, fileWrite, closedRelErr, hc, he]

theorem sendAbsEvent_eq_of_closed (f : DeviceFile) (x y : Int)
    (hc : f.closed = true) (he : ∀ n, f.failEncode n = none) :
    sendAbsEvent f x y =
      ({ f with encodes := f.encodes + 1 }, some closedAbsErr) := by
  simp [sendAbsEvent, sendAbsEventStep, inputEventToBuffer, fileWrite,
    closedAbsErr, hc, he]

theorem closeDevice_fst (f : DeviceFile) :
    (closeDevice f).1 = { f with closed := true } := by
  cases f with
  | mk closed written fe fw en wr => cases closed <;> simp [closeDevice]



/-- C1: when encoding and every write succeed, `TouchPad.MoveTo x y` writes
exactly three event records to the device file in this order: the
absolute-axis event with code `absX` and value `x`, then the absolute-axis
event with code `absY` and value `y`, then the synchronization event; nothing
is interleaved or reordered. -/
theorem moveTo_emits_x_y_sync (f : DeviceFile) (x y : Int)
    (hc : f.closed = false) (he : ∀ n, f.failEncode n = none)
    (hw : ∀ n, f.failWrite n = none) :
    (vTouchPad.MoveTo f x y).2 = none ∧
    (vTouchPad.MoveTo f x y).1.written =
      f.written ++
        [{ type := evAbs, code := absX, value := x },
         { type := evAbs, code := absY, value := y }, syncEv] := by
  simp [vTouchPad.MoveTo, sendAbsEvent_eq_of_ok f x y hc he hw]

/-- Witness for C1 at x = 10, y = 20 on a fresh device file. -/
theorem moveTo_emits_x_y_sync_witness :
    (vTouchPad.MoveTo (mkDeviceFile noFail noFail) 10 20).2 = none ∧
    (vTouchPad.MoveTo (mkDeviceFile noFail noFail) 10 20).1.written =
      [{ type := evAbs, code := absX, value := 10 },
       { type := evAbs, code := absY, value := 20 }, syncEv] := by
  simpa [mkDeviceFile] using
    moveTo_emits_x_y_sync (mkDeviceFile noFail noFail) 10 20 rfl
      (fun _ => rfl) (fun _ => rfl)

/-- C2: for both the touchpad and the mouse, when every write succeeds,
`LeftClick` emits exactly two button events for the left-button code, pressed
first and released second, each immediately followed by its own
synchronization event, four records in total; `RightClick` does the same for
the right-button code. -/
theorem click_press_sync_release_sync (f : DeviceFile)
    (hc : f.closed = false) (he : ∀ n, f.failEncode n = none)
    (hw : ∀ n, f.failWrite n = none) :
    ((vTouchPad.LeftClick f).2 = none ∧
     (vTouchPad.LeftClick f).1.written = f.written ++
       [{ type := evKey, code := evBtnLeft, value := btnStatePressed }, syncEv,
        { type := evKey, code := evBtnLeft, value := btnStateReleased }, syncEv]) ∧
    ((vTouchPad.RightClick f).2 = none ∧
     (vTouchPad.RightClick f).1.written = f.written ++
       [{ type := evKey, code := evBtnRight, value := btnStatePressed }, syncEv,
        { type := evKey, code := evBtnRight, value := btnStateReleased }, syncEv]) ∧
    ((vMouse.LeftClick f).2 = none ∧
     (vMouse.LeftClick f).1.written = f.written ++
       [{ type := evKey, code := evBtnLeft, value := btnStatePressed }, syncEv,
        { type := evKey, code := evBtnLeft, value := btnStateReleased }, syncEv]) ∧
    ((vMouse.RightClick f).2 = none ∧
     (vMouse.RightClick f).1.written = f.written ++
       [{ type := evKey, code := evBtnRight, value := btnStatePressed }, syncEv,
        { type := evKey, code := evBtnRight, value := btnStateReleased }, syncEv]) := by
  simp [vTouchPad.LeftClick, vTouchPad.RightClick, vMouse.LeftClick,
    vMouse.RightClick, sendBtnEvent_eq_of_ok, hc, he, hw]

/-- Witness for C2 on a fresh device file. -/
theorem click_press_sync_release_sync_witness :
    ((vTouchPad.LeftClick (mkDeviceFile noFail noFail)).2 = none ∧
     (vTouchPad.LeftClick (mkDeviceFile noFail noFail)).1.written =
       [{ type := evKey, code := evBtnLeft, value := btnStatePressed }, syncEv,
        { type := evKey, code := evBtnLeft, value := btnStateReleased }, syncEv]) ∧
    ((vTouchPad.RightClick (mkDeviceFile noFail noFail)).2 = none ∧
     (vTouchPad.RightClick (mkDeviceFile noFail noFail)).1.written =
       [{ type := evKey, code := evBtnRight, value := btnStatePressed }, syncEv,
        { type := evKey, code := evBtnRight, value := btnStateReleased }, syncEv]) ∧
    ((vMouse.LeftClick (mkDeviceFile noFail noFail)).2 = none ∧
     (vMouse.LeftClick (mkDeviceFile noFail noFail)).1.written =
       [{ type := evKey, code := evBtnLeft, value := btnStatePressed }, syncEv,
        { type := evKey, code := evBtnLeft, value := btnStateReleased }, syncEv]) ∧
    ((vMouse.RightClick (mkDeviceFile noFail noFail)).2 = none ∧
     (vMouse.RightClick (mkDeviceFile noFail noFail)).1.written =
       [{ type := evKey, code := evBtnRight, value := btnStatePressed }, syncEv,
        { type := evKey, code := evBtnRight, value := btnStateReleased }, syncEv]) := by
  simpa [mkDeviceFile] using
    click_press_sync_release_sync (mkDeviceFile noFail noFail) rfl
      (fun _ => rfl) (fun _ => rfl)

/-- C9: `TouchPad.MoveTo x y` transmits the coordinates exactly as given even
when they lie outside the min/max bounds registered at creation: the values
placed into the emitted records are `x` and `y` themselves, with no clamping,
saturation or other transformation. -/
theorem moveTo_no_clamping (f : DeviceFile) (minX maxX minY maxY x y : Int)
    (hout : x < minX ∨ maxX < x ∨ y < minY ∨ maxY < y)
    (hc : f.closed = false) (he : ∀ n, f.failEncode n = none)
    (hw : ∀ n, f.failWrite n = none) :
    (vTouchPad.MoveTo f x y).2 = none ∧
    (vTouchPad.MoveTo f x y).1.written =
      f.written ++
        [{ type := evAbs, code := absX, value := x },
         { type := evAbs, code := absY, value := y }, syncEv] := by
  simp [vTouchPad.MoveTo, sendAbsEvent_eq_of_ok f x y hc he hw]

/-- Witness for C9: bounds 0..100 on both axes, coordinates (500, -3) outside
them, transmitted unchanged. -/
theorem moveTo_no_clamping_witness :
    ((500 : Int) < 0 ∨ (100 : Int) < 500 ∨ (-3 : Int) < 0 ∨ (100 : Int) < -3) ∧
    ((vTouchPad.MoveTo (mkDeviceFile noFail noFail) 500 (-3)).2 = none ∧
     (vTouchPad.MoveTo (mkDeviceFile noFail noFail) 500 (-3)).1.written =
       [{ type := evAbs, code := absX, value := 500 },
        { type := evAbs, code := absY, value := -3 }, syncEv]) := by
  refine ⟨by norm_num, ?_⟩
  simpa [mkDeviceFile] using
    moveTo_no_clamping (mkDeviceFile noFail noFail) 0 100 0 100 500 (-3)
      (by norm_num) rfl (fun _ => rfl) (fun _ => rfl)

theorem neg32_eq_neg {p : Int} (h1 : -(2 ^ 31) < p) (h2 : p < 2 ^ 31) :
    neg32 p = -p := by
  have hp : ((2 : Int) ^ 31) = 2147483648 := by norm_num
  have hq : ((2 : Int) ^ 32) = 4294967296 := by norm_num
  simp only [neg32, wrap32, hp, hq] at *
  omega

theorem neg32_eq_toSigned (p : Int) :
    neg32 p = toSigned32 ((2 ^ 32 - p) % 2 ^ 32) := by
  have hp : ((2 : Int) ^ 31) = 2147483648 := by norm_num
  have hq : ((2 : Int) ^ 32) = 4294967296 := by norm_num
  simp only [neg32, wrap32, toSigned32, hp, hq]
  split <;> omega

/-- C5: in `TouchPad.MoveTo`, a failure of the encode or of the write of the
first (absolute-X) event causes an immediate error return with nothing
written, so the absolute-Y event and the synchronization event are never
written; a failure on the second (absolute-Y) event leaves the first event
already written and the synchronization event never written. -/
theorem moveTo_partial_failure (x y : Int) (e : Err) :
    ((vTouchPad.MoveTo
        (mkDeviceFile (fun n => if n = 0 then some e else none) noFail) x y).2 =
       some (Err.wrapped "writing abs event failed" e) ∧
     (vTouchPad.MoveTo
        (mkDeviceFile (fun n => if n = 0 then some e else none) noFail)
        x y).1.written = []) ∧
    ((vTouchPad.MoveTo
        (mkDeviceFile noFail (fun n => if n = 0 then some e else none)) x y).2 =
       some (Err.wrapped "failed to write abs event to device file" e) ∧
     (vTouchPad.MoveTo
        (mkDeviceFile noFail (fun n => if n = 0 then some e else none))
        x y).1.written = []) ∧
    ((vTouchPad.MoveTo
        (mkDeviceFile noFail (fun n => if n = 1 then some e else none)) x y).2 =
       some (Err.wrapped "failed to write abs event to device file" e) ∧
     (vTouchPad.MoveTo
        (mkDeviceFile noFail (fun n => if n = 1 then some e else none))
        x y).1.written = [{ type := evAbs, code := absX, value := x }]) := by
  simp [vTouchPad.MoveTo, sendAbsEvent, sendAbsEventStep, inputEventToBuffer,
    fileWrite, syncEvents, mkDeviceFile, noFail]

/-- C6: for every device handle, touchpad or mouse, and every operation on it
(`MoveTo`, the relative moves, clicks, presses, releases), calling the
operation after `Close` has returned yields an error rooted in the
closed-device condition and performs no write to the device file. -/
theorem closed_handle_rejects_ops (f : DeviceFile) (x y p : Int)
    (he : ∀ n, f.failEncode n = none) :
    ((vTouchPad.MoveTo (vTouchPad.Close f).1 x y).2 = some closedAbsErr ∧
     (vTouchPad.MoveTo (vTouchPad.Close f).1 x y).1.written = f.written) ∧
    ((vTouchPad.LeftClick (vTouchPad.Close f).1).2 =
       some (Err.wrapped "Failed to issue the LeftClick event" closedBtnErr) ∧
     (vTouchPad.LeftClick (vTouchPad.Close f).1).1.written = f.written) ∧
    ((vTouchPad.RightClick (vTouchPad.Close f).1).2 =
       some (Err.wrapped "Failed to issue the RightClick event" closedBtnErr) ∧
     (vTouchPad.RightClick (vTouchPad.Close f).1).1.written = f.written) ∧
    ((vTouchPad.LeftPress (vTouchPad.Close f).1).2 = some closedBtnErr ∧
     (vTouchPad.LeftPress (vTouchPad.Close f).1).1.written = f.written) ∧
    ((vTouchPad.LeftRelease (vTouchPad.Close f).1).2 = some closedBtnErr ∧
     (vTouchPad.LeftRelease (vTouchPad.Close f).1).1.written = f.written) ∧
    ((vTouchPad.RightPress (vTouchPad.Close f).1).2 = some closedBtnErr ∧
     (vTouchPad.RightPress (vTouchPad.Close f).1).1.written = f.written) ∧
    ((vTouchPad.RightRelease (vTouchPad.Close f).1).2 = some closedBtnErr ∧
     (vTouchPad.RightRelease (vTouchPad.Close f).1).1.written = f.written) ∧
    ((vMouse.MoveLeft (vMouse.Close f).1 p).2 = some closedRelErr ∧
     (vMouse.MoveLeft (vMouse.Close f).1 p).1.written = f.written) ∧
    ((vMouse.MoveRight (vMouse.Close f).1 p).2 = some closedRelErr ∧
     (vMouse.MoveRight (vMouse.Close f).1 p).1.written = f.written) ∧
    ((vMouse.MoveUp (vMouse.Close f).1 p).2 = some closedRelErr ∧
     (vMouse.MoveUp (vMouse.Close f).1 p).1.written = f.written) ∧
    ((vMouse.MoveDown (vMouse.Close f).1 p).2 = some closedRelErr ∧
     (vMouse.MoveDown (vMouse.Close f).1 p).1.written = f.written) ∧
    ((vMouse.LeftClick (vMouse.Close f).1).2 =
       some (Err.wrapped "Failed to issue the LeftClick event" closedBtnErr) ∧
     (vMouse.LeftClick (vMouse.Close f).1).1.written = f.written) ∧
    ((vMouse.RightClick (vMouse.Close f).1).2 =
       some (Err.wrapped "Failed to issue the RightClick event" closedBtnErr) ∧
     (vMouse.RightClick (vMouse.Close f).1).1.written = f.written) ∧
    ((vMouse.LeftPress (vMouse.Close f).1).2 = some closedBtnErr ∧
     (vMouse.LeftPress (vMouse.Close f).1).1.written = f.written) ∧
    ((vMouse.LeftRelease (vMouse.Close f).1).2 = some closedBtnErr ∧
     (vMouse.LeftRelease (vMouse.Close f).1).1.written = f.written) ∧
    ((vMouse.RightPress (vMouse.Close f).1).2 = some closedBtnErr ∧
     (vMouse.RightPress (vMouse.Close f).1).1.written = f.written) ∧
    ((vMouse.RightRelease (vMouse.Close f).1).2 = some closedBtnErr ∧
     (vMouse.RightRelease (vMouse.Close f).1).1.written = f.written) := by
  simp [vTouchPad.MoveTo, vTouchPad.Close, vTouchPad.LeftClick,
    vTouchPad.RightClick, vTouchPad.LeftPress, vTouchPad.LeftRelease,
    vTouchPad.RightPress, vTouchPad.RightRelease, vMouse.Close,
    vMouse.MoveLeft, vMouse.MoveRight, vMouse.MoveUp, vMouse.MoveDown,
    vMouse.LeftClick, vMouse.RightClick, vMouse.LeftPress, vMouse.LeftRelease,
    vMouse.RightPress, vMouse.RightRelease, closeDevice_fst,
    sendAbsEvent_eq_of_closed, sendBtnEvent_eq_of_closed,
    sendRelEvent_eq_of_closed, he]

/-- Witness for C6: a freshly created and then closed handle rejects
`MoveTo`, `MoveLeft` and `LeftClick` without writing anything. -/
theorem closed_handle_rejects_ops_witness :
    ((vTouchPad.MoveTo (vTouchPad.Close (mkDeviceFile noFail noFail)).1 1 2).2 =
       some closedAbsErr ∧
     (vTouchPad.MoveTo (vTouchPad.Close (mkDeviceFile noFail noFail)).1 1 2).1.written = []) ∧
    ((vMouse.MoveLeft (vMouse.Close (mkDeviceFile noFail noFail)).1 3).2 =
       some closedRelErr ∧
     (vMouse.MoveLeft (vMouse.Close (mkDeviceFile noFail noFail)).1 3).1.written = []) ∧
    ((vTouchPad.LeftClick (vTouchPad.Close (mkDeviceFile noFail noFail)).1).2 =
       some (Err.wrapped "Failed to issue the LeftClick event" closedBtnErr) ∧
     (vTouchPad.LeftClick (vTouchPad.Close (mkDeviceFile noFail noFail)).1).1.written = []) := by
  have h := closed_handle_rejects_ops (mkDeviceFile noFail noFail) 1 2 3
    (fun _ => rfl)
  exact ⟨⟨h.1.1, h.1.2⟩, ⟨h.2.2.2.2.2.2.2.1.1, h.2.2.2.2.2.2.2.1.2⟩,
    ⟨h.2.1.1, h.2.1.2⟩⟩

theorem neg32_intmin : neg32 (-2147483648) = -2147483648 := by decide

/-- Counterexample to C7 as stated: at pixel = -2147483648 the value the
code emits is -2147483648 itself (Go `int32` negation wraps), not the
mathematical negation +2147483648 the claim asks for. -/
theorem moveLeft_intmin_cex :
    (vMouse.MoveLeft (mkDeviceFile noFail noFail) (-2147483648)).1.written =
      [{ type := evRel, code := relX, value := -2147483648 }, syncEv] ∧
    (vMouse.MoveLeft (mkDeviceFile noFail noFail) (-2147483648)).1.written ≠
      [{ type := evRel, code := relX, value := -(-2147483648 : Int) }, syncEv] := by
  decide

/-- C7 (amended): for every pixel argument p strictly between -2^31 and
2^31 (the amendment excludes p = -2^31, where 32-bit negation wraps), when
encoding and the write succeed, `Mouse.MoveLeft p` emits exactly one
relative-X event with value -p, `MoveRight p` one with value p, `MoveUp p`
one relative-Y event with value -p, and `MoveDown p` one with value p, each
followed by a single synchronization event. -/
theorem relative_moves_sign_convention (f : DeviceFile) (p : Int)
    (h1 : -(2 ^ 31) < p) (h2 : p < 2 ^ 31)
    (hc : f.closed = false) (he : ∀ n, f.failEncode n = none)
    (hw : ∀ n, f.failWrite n = none) :
    ((vMouse.MoveLeft f p).2 = none ∧
     (vMouse.MoveLeft f p).1.written = f.written ++
       [{ type := evRel, code := relX, value := -p }, syncEv]) ∧
    ((vMouse.MoveRight f p).2 = none ∧
     (vMouse.MoveRight f p).1.written = f.written ++
       [{ type := evRel, code := relX, value := p }, syncEv]) ∧
    ((vMouse.MoveUp f p).2 = none ∧
     (vMouse.MoveUp f p).1.written = f.written ++
       [{ type := evRel, code := relY, value := -p }, syncEv]) ∧
    ((vMouse.MoveDown f p).2 = none ∧
     (vMouse.MoveDown f p).1.written = f.written ++
       [{ type := evRel, code := relY, value := p }, syncEv]) := by
  simp [vMouse.MoveLeft, vMouse.MoveRight, vMouse.MoveUp, vMouse.MoveDown,
    sendRelEvent_eq_of_ok, hc, he, hw, neg32_eq_neg h1 h2]

/-- Witness for C7 at p = 5: `MoveLeft 5` emits relative-X value -5 and
`MoveDown 5` emits relative-Y value +5. -/
theorem relative_moves_sign_convention_witness :
    ((vMouse.MoveLeft (mkDeviceFile noFail noFail) 5).2 = none ∧
     (vMouse.MoveLeft (mkDeviceFile noFail noFail) 5).1.written =
       [{ type := evRel, code := relX, value := -5 }, syncEv]) ∧
    ((vMouse.MoveDown (mkDeviceFile noFail noFail) 5).2 = none ∧
     (vMouse.MoveDown (mkDeviceFile noFail noFail) 5).1.written =
       [{ type := evRel, code := relY, value := 5 }, syncEv]) := by
  have h := relative_moves_sign_convention (mkDeviceFile noFail noFail) 5
    (by norm_num) (by norm_num) rfl (fun _ => rfl) (fun _ => rfl)
  refine ⟨?_, ?_⟩
  · simpa [mkDeviceFile] using h.1
  · simpa [mkDeviceFile] using h.2.2.2

/-- C10: the negation in `Mouse.MoveLeft` and `Mouse.MoveUp` is 32-bit
two's-complement negation: for every p the emitted delta equals
(2^32 - p) mod 2^32 interpreted as a signed 32-bit value, and in particular
`MoveLeft (-2147483648)` and `MoveUp (-2147483648)` emit -2147483648 itself
rather than +2147483648. -/
theorem moveLeft_32bit_wrap (f : DeviceFile) (p : Int)
    (hc : f.closed = false) (he : ∀ n, f.failEncode n = none)
    (hw : ∀ n, f.failWrite n = none) :
    ((vMouse.MoveLeft f p).1.written = f.written ++
       [{ type := evRel, code := relX,
          value := toSigned32 ((2 ^ 32 - p) % 2 ^ 32) }, syncEv]) ∧
    ((vMouse.MoveUp f p).1.written = f.written ++
       [{ type := evRel, code := relY,
          value := toSigned32 ((2 ^ 32 - p) % 2 ^ 32) }, syncEv]) ∧
    ((vMouse.MoveLeft f (-2147483648)).1.written = f.written ++
       [{ type := evRel, code := relX, value := -2147483648 }, syncEv]) ∧
    ((vMouse.MoveUp f (-2147483648)).1.written = f.written ++
       [{ type := evRel, code := relY, value := -2147483648 }, syncEv]) := by
  have hp : neg32 p = toSigned32 ((2 ^ 32 - p) % 2 ^ 32) := neg32_eq_toSigned p
  simp [vMouse.MoveLeft, vMouse.MoveUp, sendRelEvent_eq_of_ok, hc, he, hw,
    neg32_intmin, hp]

/-- Witness for C10 at p = 7 (delta -7) and at p = -2147483648 (delta
-2147483648). -/
theorem moveLeft_32bit_wrap_witness :
    ((vMouse.MoveLeft (mkDeviceFile noFail noFail) 7).1.written =
       [{ type := evRel, code := relX,
          value := toSigned32 ((2 ^ 32 - 7) % 2 ^ 32) }, syncEv]) ∧
    toSigned32 ((2 ^ 32 - 7) % 2 ^ 32) = -7 ∧
    ((vMouse.MoveLeft (mkDeviceFile noFail noFail) (-2147483648)).1.written =
       [{ type := evRel, code := relX, value := -2147483648 }, syncEv]) := by
  have h := moveLeft_32bit_wrap (mkDeviceFile noFail noFail) 7 rfl
    (fun _ => rfl) (fun _ => rfl)
  refine ⟨by simpa [mkDeviceFile] using h.1, by decide,
    by simpa [mkDeviceFile] using h.2.2.1⟩

/-- C3: with every control call succeeding, creating a touchpad performs, in
exactly this order: open device file, register the key category, the
left-button code, the right-button code, the absolute-position category, the
absolute X code, the absolute Y code, submit the descriptor whose bound
arrays carry Absmin[absX] = minX, Absmin[absY] = minY, Absmax[absX] = maxX,
Absmax[absY] = maxY; creating a mouse performs the same key/button sequence,
then the relative-motion category, the relative X and Y codes, and submits
the descriptor with no axis bounds.  Each code is registered only after its
owning category, as the listed order shows. -/
theorem creation_call_order (plan : Nat → Option Err) (path : String)
    (name : List Nat) (minX maxX minY maxY : Int)
    (hp : ∀ n, plan n = none) :
    ((createTouchPad (initialSetup plan) path name minX maxX minY maxY).2 =
       Except.ok () ∧
     (createTouchPad (initialSetup plan) path name minX maxX minY
         maxY).1.calls =
       touchCallSeq path name minX maxX minY maxY) ∧
    ((createMouse (initialSetup plan) path name).2 = Except.ok () ∧
     (createMouse (initialSetup plan) path name).1.calls =
       mouseCallSeq path name) ∧
    ((((List.replicate absSize (0 : Int)).set absX minX).set absY
        minY)[absX]? = some minX ∧
     (((List.replicate absSize (0 : Int)).set absX minX).set absY
        minY)[absY]? = some minY ∧
     (((List.replicate absSize (0 : Int)).set absX maxX).set absY
        maxY)[absX]? = some maxX ∧
     (((List.replicate absSize (0 : Int)).set absX maxX).set absY
        maxY)[absY]? = some maxY) := by
  refine ⟨?_, ?_, ?_⟩
  · simp [createTouchPad, createDeviceFile, registerDevice, ioctl, ctrlCall,
      createUsbDevice, initialSetup, touchCallSeq, hp]
  · simp [createMouse, createDeviceFile, registerDevice, ioctl, ctrlCall,
      createUsbDevice, initialSetup, mouseCallSeq, hp]
  · refine ⟨?_, ?_, ?_, ?_⟩ <;>
      simp [absX, absY, absSize, List.getElem?_set_ne,
        List.getElem?_set_eq_of_lt]

/-- C4: if the i-th control call of `createTouchPad` or `createMouse` fails
(i ranging over the capability registrations and the final descriptor
submission), the already-opened device file is closed before returning, the
returned error wraps the failing stage's message, and no control call after
the failing one is attempted: the recorded calls are exactly the first i+1 of
the full sequence. -/
theorem creation_failure_aborts (i : Nat) (e : Err) (path : String)
    (name : List Nat) (minX maxX minY maxY : Int)
    (h1 : 1 ≤ i) (h2 : i ≤ 7) :
    ((createTouchPad (initialSetup (fun n => if n = i then some e else none))
        path name minX maxX minY maxY).2 =
       Except.error (Err.wrapped (touchStageMsgs.getD i "") e) ∧
     (createTouchPad (initialSetup (fun n => if n = i then some e else none))
        path name minX maxX minY maxY).1.fileClosed = true ∧
     (createTouchPad (initialSetup (fun n => if n = i then some e else none))
        path name minX maxX minY maxY).1.calls =
       (touchCallSeq path name minX maxX minY maxY).take (i + 1)) ∧
    ((createMouse (initialSetup (fun n => if n = i then some e else none))
        path name).2 =
       Except.error (Err.wrapped (mouseStageMsgs.getD i "") e) ∧
     (createMouse (initialSetup (fun n => if n = i then some e else none))
        path name).1.fileClosed = true ∧
     (createMouse (initialSetup (fun n => if n = i then some e else none))
        path name).1.calls = (mouseCallSeq path name).take (i + 1)) := by
  interval_cases i <;>
    simp [createTouchPad, createMouse, createDeviceFile, registerDevice,
      ioctl, ctrlCall, createUsbDevice, initialSetup, touchCallSeq,
      mouseCallSeq, touchStageMsgs, mouseStageMsgs]

/-- C8: both creation paths submit a final descriptor with bus type USB,
vendor 0x4711 and version 1; the product IDs are fixed and distinct per
device kind: 0x0817 for the touchpad and 0x0816 for the mouse. -/
theorem descriptor_identity (plan : Nat → Option Err) (path : String)
    (name : List Nat) (minX maxX minY maxY : Int)
    (hp : ∀ n, plan n = none) :
    ((createTouchPad (initialSetup plan) path name minX maxX minY
        maxY).1.calls.getLast? =
       some (CtrlReq.devCreate
         { Name := toUinputName name,
           ID := { Bustype := busUsb, Vendor := 0x4711, Product := 0x0817,
                   Version := 1 },
           Absmin := (((List.replicate absSize (0 : Int)).set absX
                        minX).set absY minY),
           Absmax := (((List.replicate absSize (0 : Int)).set absX
                        maxX).set absY maxY) })) ∧
    ((createMouse (initialSetup plan) path name).1.calls.getLast? =
       some (CtrlReq.devCreate
         { Name := toUinputName name,
           ID := { Bustype := busUsb, Vendor := 0x4711, Product := 0x0816,
                   Version := 1 } })) ∧
    (0x0817 : Nat) ≠ 0x0816 := by
  refine ⟨?_, ?_, by norm_num⟩
  · simp [createTouchPad, createDeviceFile, registerDevice, ioctl, ctrlCall,
      createUsbDevice, initialSetup, hp]
  · simp [createMouse, createDeviceFile, registerDevice, ioctl, ctrlCall,
      createUsbDevice, initialSetup, hp]

/-- Witness for C3 on a concrete path, name and bounds under the all-success
oracle. -/
theorem creation_call_order_witness :
    ((createTouchPad (initialSetup noFail) "/dev/uinput" [65] 1 1024 2
        768).2 = Except.ok () ∧
     (createTouchPad (initialSetup noFail) "/dev/uinput" [65] 1 1024 2
        768).1.calls = touchCallSeq "/dev/uinput" [65] 1 1024 2 768) ∧
    ((createMouse (initialSetup noFail) "/dev/uinput" [65]).2 =
       Except.ok () ∧
     (createMouse (initialSetup noFail) "/dev/uinput" [65]).1.calls =
       mouseCallSeq "/dev/uinput" [65]) ∧
    ((((List.replicate absSize (0 : Int)).set absX 1).set absY 2)[absX]? =
       some 1 ∧
     (((List.replicate absSize (0 : Int)).set absX 1).set absY 2)[absY]? =
       some 2 ∧
     (((List.replicate absSize (0 : Int)).set absX 1024).set absY
        768)[absX]? = some 1024 ∧
     (((List.replicate absSize (0 : Int)).set absX 1024).set absY
        768)[absY]? = some 768) :=
  creation_call_order noFail "/dev/uinput" [65] 1 1024 2 768 (fun _ => rfl)

/-- Witness for C4 at stage i = 5 (absolute/relative X axis registration)
with a concrete underlying error. -/
theorem creation_failure_aborts_witness :
    (1 ≤ 5 ∧ 5 ≤ 7) ∧
    ((createTouchPad
        (initialSetup (fun n => if n = 5 then some (Err.sys "boom") else none))
        "/dev/uinput" [65] 1 1024 2 768).2 =
       Except.error (Err.wrapped (touchStageMsgs.getD 5 "") (Err.sys "boom")) ∧
     (createTouchPad
        (initialSetup (fun n => if n = 5 then some (Err.sys "boom") else none))
        "/dev/uinput" [65] 1 1024 2 768).1.fileClosed = true ∧
     (createTouchPad
        (initialSetup (fun n => if n = 5 then some (Err.sys "boom") else none))
        "/dev/uinput" [65] 1 1024 2 768).1.calls =
       (touchCallSeq "/dev/uinput" [65] 1 1024 2 768).take 6) ∧
    ((createMouse
        (initialSetup (fun n => if n = 5 then some (Err.sys "boom") else none))
        "/dev/uinput" [65]).2 =
       Except.error (Err.wrapped (mouseStageMsgs.getD 5 "") (Err.sys "boom")) ∧
     (createMouse
        (initialSetup (fun n => if n = 5 then some (Err.sys "boom") else none))
        "/dev/uinput" [65]).1.fileClosed = true ∧
     (createMouse
        (initialSetup (fun n => if n = 5 then some (Err.sys "boom") else none))
        "/dev/uinput" [65]).1.calls =
       (mouseCallSeq "/dev/uinput" [65]).take 6) := by
  have h := creation_failure_aborts 5 (Err.sys "boom") "/dev/uinput" [65]
    1 1024 2 768 (by norm_num) (by norm_num)
  exact ⟨⟨by norm_num, by norm_num⟩, h.1, h.2⟩

/-- Witness for C8 on a concrete path, name and bounds under the all-success
oracle. -/
theorem descriptor_identity_witness :
    ((createTouchPad (initialSetup noFail) "/dev/uinput" [65] 1 1024 2
        768).1.calls.getLast? =
       some (CtrlReq.devCreate
         { Name := toUinputName [65],
           ID := { Bustype := busUsb, Vendor := 0x4711, Product := 0x0817,
                   Version := 1 },
           Absmin := (((List.replicate absSize (0 : Int)).set absX 1).set
                        absY 2),
           Absmax := (((List.replicate absSize (0 : Int)).set absX
                        1024).set absY 768) })) ∧
    ((createMouse (initialSetup noFail) "/dev/uinput" [65]).1.calls.getLast? =
       some (CtrlReq.devCreate
         { Name := toUinputName [65],
           ID := { Bustype := busUsb, Vendor := 0x4711, Product := 0x0816,
                   Version := 1 } })) ∧
    (0x0817 : Nat) ≠ 0x0816 :=
  descriptor_identity noFail "/dev/uinput" [65] 1 1024 2 768 (fun _ => rfl)

end Uinput
